import Mathlib

/-!
Verification of the redis-rwproxy read/write splitting proxy.

This file gives a shallow embedding of the proxy's routing, parsing,
forwarding and statistics code (src/routing.rs, src/command.rs,
src/proxy.rs, src/resp.rs, src/stats.rs, src/config.rs) and proves the
specification's claims about it.  Byte strings are modelled as
`List Nat` (each element one byte), Rust `String`s as Lean `String`s
(sequences of Unicode scalar values), and the tokio I/O environment as
explicit records of outcomes supplied to pure step functions.
-/

set_option maxHeartbeats 1600000
set_option maxRecDepth 40000

/-- A byte string (Rust `Bytes` / `&[u8]`): a list of byte values. -/
abbrev ByteStr := List Nat

/-! ## src/routing.rs -/

/-- Routing decision for one command (src/routing.rs `Route`). -/
inductive Route
  | Master
  | Replica
  | Both
  deriving DecidableEq, Repr

/-- src/routing.rs `is_replica_read_whitelisted`: conservative whitelist of
commands safe to route to a read replica (a Rust `matches!` chain). -/
def is_replica_read_whitelisted (cmd_upper : String) : Bool :=
  cmd_upper == "PING" ||
  cmd_upper == "SCAN" || cmd_upper == "SSCAN" || cmd_upper == "HSCAN" || cmd_upper == "ZSCAN" ||
  cmd_upper == "GET" || cmd_upper == "MGET" || cmd_upper == "GETRANGE" || cmd_upper == "STRLEN" ||
  cmd_upper == "HGET" || cmd_upper == "HMGET" || cmd_upper == "HGETALL" || cmd_upper == "HEXISTS" ||
  cmd_upper == "HLEN" || cmd_upper == "HSTRLEN" || cmd_upper == "HKEYS" || cmd_upper == "HVALS" ||
  cmd_upper == "LINDEX" || cmd_upper == "LLEN" || cmd_upper == "LRANGE" ||
  cmd_upper == "SCARD" || cmd_upper == "SISMEMBER" || cmd_upper == "SMISMEMBER" ||
  cmd_upper == "SMEMBERS" || cmd_upper == "SRANDMEMBER" ||
  cmd_upper == "ZCARD" || cmd_upper == "ZCOUNT" || cmd_upper == "ZRANGE" ||
  cmd_upper == "ZRANGEBYSCORE" || cmd_upper == "ZREVRANGE" || cmd_upper == "ZREVRANGEBYSCORE" ||
  cmd_upper == "ZRANK" || cmd_upper == "ZREVRANK" || cmd_upper == "ZSCORE" || cmd_upper == "ZMSCORE" ||
  cmd_upper == "EXISTS" || cmd_upper == "TYPE" || cmd_upper == "TTL" || cmd_upper == "PTTL"

/-- src/routing.rs `is_dual_forward`: commands (or subcommands) forwarded to
both master and replica.  The Rust `match` tests `SELECT | READONLY |
READWRITE`, then `CLIENT` with its first argument, then `HELLO`. -/
def is_dual_forward (cmd_upper : String) (first_arg_upper : Option String) : Bool :=
  if cmd_upper == "SELECT" || cmd_upper == "READONLY" || cmd_upper == "READWRITE" then true
  else if cmd_upper == "CLIENT" then
    let f := first_arg_upper.getD ""
    f == "SETNAME" || f == "SETINFO" || f == "TRACKING" || f == "CACHING" || f == "REPLY"
  else if cmd_upper == "HELLO" then true
  else false

/-- src/routing.rs `is_always_master`: commands always routed to the master. -/
def is_always_master (cmd_upper : String) : Bool :=
  cmd_upper == "MULTI" || cmd_upper == "EXEC" || cmd_upper == "DISCARD" ||
  cmd_upper == "WATCH" || cmd_upper == "UNWATCH" ||
  cmd_upper == "EVAL" || cmd_upper == "EVALSHA" || cmd_upper == "EVAL_RO" ||
  cmd_upper == "SCRIPT" || cmd_upper == "FUNCTION" || cmd_upper == "FCALL" ||
  cmd_upper == "FCALL_RO" || cmd_upper == "MONITOR" ||
  cmd_upper == "SUBSCRIBE" || cmd_upper == "PSUBSCRIBE" || cmd_upper == "SSUBSCRIBE" ||
  cmd_upper == "PUNSUBSCRIBE" || cmd_upper == "UNSUBSCRIBE" || cmd_upper == "SUNSUBSCRIBE"

/-! ## Byte-level string helpers

Rust `String`s are UTF-8; we model them as Lean `String`s and make the
encoding explicit where the code moves between bytes and strings. -/

/-- UTF-8 encoding of one Unicode scalar value. -/
def utf8EncodeChar (c : Char) : ByteStr :=
  let v := c.toNat
  if v < 0x80 then [v]
  else if v < 0x800 then [0xC0 ||| (v >>> 6), 0x80 ||| (v &&& 0x3F)]
  else if v < 0x10000 then
    [0xE0 ||| (v >>> 12), 0x80 ||| ((v >>> 6) &&& 0x3F), 0x80 ||| (v &&& 0x3F)]
  else
    [0xF0 ||| (v >>> 18), 0x80 ||| ((v >>> 12) &&& 0x3F),
     0x80 ||| ((v >>> 6) &&& 0x3F), 0x80 ||| (v &&& 0x3F)]

/-- UTF-8 bytes of a string (Rust `str::as_bytes`). -/
def strBytes (s : String) : ByteStr :=
  s.data.foldr (fun c acc => utf8EncodeChar c ++ acc) []

/-- A UTF-8 continuation byte. -/
def isUtf8Cont (b : Nat) : Bool := 0x80 ≤ b && b ≤ 0xBF

/-- Strict UTF-8 decoding (Rust `std::str::from_utf8`), fueled by the byte
count so that recursion is structural.  Rejects overlong forms, surrogates
and out-of-range values, as Rust does. -/
def utf8DecodeAux : Nat → List Nat → Option (List Char)
  | _, [] => some []
  | 0, _ :: _ => none
  | fuel + 1, b0 :: rest =>
    if b0 ≤ 0x7F then (utf8DecodeAux fuel rest).map (Char.ofNat b0 :: ·)
    else if 0xC2 ≤ b0 && b0 ≤ 0xDF then
      match rest with
      | b1 :: rest2 =>
        if isUtf8Cont b1 then
          (utf8DecodeAux fuel rest2).map
            (Char.ofNat ((b0 - 0xC0) * 0x40 + (b1 - 0x80)) :: ·)
        else none
      | [] => none
    else if 0xE0 ≤ b0 && b0 ≤ 0xEF then
      match rest with
      | b1 :: b2 :: rest3 =>
        let okB1 :=
          if b0 == 0xE0 then 0xA0 ≤ b1 && b1 ≤ 0xBF
          else if b0 == 0xED then 0x80 ≤ b1 && b1 ≤ 0x9F
          else isUtf8Cont b1
        if okB1 && isUtf8Cont b2 then
          (utf8DecodeAux fuel rest3).map
            (Char.ofNat ((b0 - 0xE0) * 0x1000 + (b1 - 0x80) * 0x40 + (b2 - 0x80)) :: ·)
        else none
      | _ => none
    else if 0xF0 ≤ b0 && b0 ≤ 0xF4 then
      match rest with
      | b1 :: b2 :: b3 :: rest4 =>
        let okB1 :=
          if b0 == 0xF0 then 0x90 ≤ b1 && b1 ≤ 0xBF
          else if b0 == 0xF4 then 0x80 ≤ b1 && b1 ≤ 0x8F
          else isUtf8Cont b1
        if okB1 && isUtf8Cont b2 && isUtf8Cont b3 then
          (utf8DecodeAux fuel rest4).map
            (Char.ofNat ((b0 - 0xF0) * 0x40000 + (b1 - 0x80) * 0x1000 +
              (b2 - 0x80) * 0x40 + (b3 - 0x80)) :: ·)
        else none
      | _ => none
    else none

/-- Rust `std::str::from_utf8(...).ok()`. -/
def from_utf8 (b : ByteStr) : Option String :=
  (utf8DecodeAux b.length b).map fun cs => ⟨cs⟩

/-- The Unicode replacement character U+FFFD. -/
def replChar : Char := Char.ofNat 0xFFFD

/-- Lossy UTF-8 decoding (Rust `String::from_utf8_lossy`): each maximal
invalid subsequence becomes one U+FFFD, per the Unicode substitution of
maximal subparts. -/
def utf8LossyAux : Nat → List Nat → List Char
  | _, [] => []
  | 0, _ :: _ => []
  | fuel + 1, b0 :: rest =>
    if b0 ≤ 0x7F then Char.ofNat b0 :: utf8LossyAux fuel rest
    else if 0xC2 ≤ b0 && b0 ≤ 0xDF then
      match rest with
      | b1 :: rest2 =>
        if isUtf8Cont b1 then
          Char.ofNat ((b0 - 0xC0) * 0x40 + (b1 - 0x80)) :: utf8LossyAux fuel rest2
        else replChar :: utf8LossyAux fuel rest
      | [] => [replChar]
    else if 0xE0 ≤ b0 && b0 ≤ 0xEF then
      match rest with
      | b1 :: rest2 =>
        let okB1 :=
          if b0 == 0xE0 then 0xA0 ≤ b1 && b1 ≤ 0xBF
          else if b0 == 0xED then 0x80 ≤ b1 && b1 ≤ 0x9F
          else isUtf8Cont b1
        if okB1 then
          match rest2 with
          | b2 :: rest3 =>
            if isUtf8Cont b2 then
              Char.ofNat ((b0 - 0xE0) * 0x1000 + (b1 - 0x80) * 0x40 + (b2 - 0x80)) ::
                utf8LossyAux fuel rest3
            else replChar :: utf8LossyAux fuel rest2
          | [] => [replChar]
        else replChar :: utf8LossyAux fuel rest
      | [] => [replChar]
    else if 0xF0 ≤ b0 && b0 ≤ 0xF4 then
      match rest with
      | b1 :: rest2 =>
        let okB1 :=
          if b0 == 0xF0 then 0x90 ≤ b1 && b1 ≤ 0xBF
          else if b0 == 0xF4 then 0x80 ≤ b1 && b1 ≤ 0x8F
          else isUtf8Cont b1
        if okB1 then
          match rest2 with
          | b2 :: rest3 =>
            if isUtf8Cont b2 then
              match rest3 with
              | b3 :: rest4 =>
                if isUtf8Cont b3 then
                  Char.ofNat ((b0 - 0xF0) * 0x40000 + (b1 - 0x80) * 0x1000 +
                    (b2 - 0x80) * 0x40 + (b3 - 0x80)) :: utf8LossyAux fuel rest4
                else replChar :: utf8LossyAux fuel rest3
              | [] => [replChar]
            else replChar :: utf8LossyAux fuel rest2
          | [] => [replChar]
        else replChar :: utf8LossyAux fuel rest
      | [] => [replChar]
    else replChar :: utf8LossyAux fuel rest

/-- Rust `String::from_utf8_lossy(...).to_string()`. -/
def from_utf8_lossy (b : ByteStr) : String := ⟨utf8LossyAux b.length b⟩

/-- Rust `str::to_ascii_uppercase` (`Char.toUpper` is exactly the ASCII map). -/
def str_to_ascii_uppercase (s : String) : String := ⟨s.data.map Char.toUpper⟩

/-- Decimal rendering of an `i64` (Rust `i64::to_string`). -/
def intDecStr (i : Int) : String :=
  if i < 0 then "-" ++ Nat.repr i.natAbs else Nat.repr i.toNat

/-! ## src/resp.rs -/

/-- src/resp.rs `RespVersion`. -/
inductive RespVersion
  | Resp2
  | Resp3
  deriving DecidableEq, Repr

/-- redis_protocol RESP2 `BytesFrame` (src/resp.rs `Resp2Frame`). -/
inductive Resp2Frame
  | SimpleString (data : ByteStr)
  | Error (data : ByteStr)
  | Integer (data : Int)
  | BulkString (data : ByteStr)
  | Array (data : List Resp2Frame)
  | Null

/-- redis_protocol RESP3 `BytesFrame` (src/resp.rs `Resp3Frame`).  `SetF`
stands for the library's `Set` variant; the `Double` payload (an f64 the
proxy never inspects) is omitted; attribute fields (never consulted by the
proxy) are omitted. -/
inductive Resp3Frame
  | BlobString (data : ByteStr)
  | BlobError (data : ByteStr)
  | SimpleString (data : ByteStr)
  | SimpleError (data : ByteStr)
  | Boolean (data : Bool)
  | Null
  | Number (data : Int)
  | Double
  | BigNumber (data : ByteStr)
  | VerbatimString (data : ByteStr)
  | Array (data : List Resp3Frame)
  | Map (data : List (Resp3Frame × Resp3Frame))
  | SetF (data : List Resp3Frame)
  | Push (data : List Resp3Frame)
  | ChunkedString (data : ByteStr)
  | Hello (version : RespVersion) (auth : Option (String × String)) (setname : Option String)

/-- src/resp.rs `Frame`. -/
inductive Frame
  | Resp2 (f : Resp2Frame)
  | Resp3 (f : Resp3Frame)

/-- src/resp.rs `encode_command`: a RESP array of bulk strings,
`*<n>\r\n` then `$<len>\r\n<part>\r\n` for each part. -/
def encode_command (parts : List ByteStr) : ByteStr :=
  let header := strBytes ("*" ++ Nat.repr parts.length) ++ [13, 10]
  parts.foldl
    (fun acc p => acc ++ strBytes ("$" ++ Nat.repr p.length) ++ [13, 10] ++ p ++ [13, 10])
    header

/-! ## src/command.rs -/

/-- src/command.rs `ParsedCommand`. -/
structure ParsedCommand where
  name_upper : String
  args : List ByteStr
  deriving DecidableEq, Repr

/-- src/command.rs `HelloRequest`. -/
structure HelloRequest where
  protover : Option RespVersion
  auth : Option (String × String)
  setname : Option String
  deriving DecidableEq, Repr

/-- src/command.rs `Request`. -/
inductive Request
  | Command (cmd : ParsedCommand)
  | Hello (hello : HelloRequest)
  deriving DecidableEq, Repr

/-- src/command.rs `ascii_upper`: byte-wise `u8::to_ascii_uppercase`, each
resulting byte cast to `char` (`b.to_ascii_uppercase() as char`), collected
into a `String`. -/
def ascii_upper (bytes : ByteStr) : String :=
  ⟨bytes.map fun b => Char.ofNat (if 0x61 ≤ b && b ≤ 0x7A then b - 0x20 else b)⟩

/-- src/command.rs `resp2_item_to_bytes`. -/
def resp2_item_to_bytes : Resp2Frame → Option ByteStr
  | .BulkString b => some b
  | .SimpleString b => some b
  | .Integer i => some (strBytes (intDecStr i))
  | _ => none

/-- src/command.rs `resp3_item_to_bytes`. -/
def resp3_item_to_bytes : Resp3Frame → Option ByteStr
  | .BlobString d => some d
  | .SimpleString d => some d
  | .Number d => some (strBytes (intDecStr d))
  | .BigNumber d => some d
  | .VerbatimString d => some d
  | _ => none

/-- src/command.rs `parse_resp2_command_parts`. -/
def parse_resp2_command_parts (frame : Resp2Frame) : Except String (String × List ByteStr) :=
  match frame with
  | .Array items =>
    match items with
    | [] => .error "Empty request array"
    | first :: rest =>
      match resp2_item_to_bytes first with
      | none => .error "Invalid command name frame"
      | some cmd =>
        match rest.mapM resp2_item_to_bytes with
        | none => .error "Invalid argument frame"
        | some args => .ok (ascii_upper cmd, args)
  | _ => .error "Expected Array frame for Redis request"

/-- src/command.rs `parse_resp3_command_parts`. -/
def parse_resp3_command_parts (frame : Resp3Frame) : Except String (String × List ByteStr) :=
  match frame with
  | .Array data =>
    match data with
    | [] => .error "Empty request array"
    | first :: rest =>
      match resp3_item_to_bytes first with
      | none => .error "Invalid command name frame"
      | some cmd =>
        match rest.mapM resp3_item_to_bytes with
        | none => .error "Invalid argument frame"
        | some args => .ok (ascii_upper cmd, args)
  | _ => .error "Expected Array frame for Redis request"

/-- The option loop in src/command.rs `parse_hello_args`: consume
`AUTH <user> <pass>` and `SETNAME <name>` tokens. -/
def parse_hello_loop : List ByteStr → Option (String × String) → Option String →
    Except String (Option (String × String) × Option String)
  | [], auth, setname => .ok (auth, setname)
  | token :: rest, auth, setname =>
    let token_upper := ascii_upper token
    if token_upper == "AUTH" then
      match rest with
      | u :: p :: rest2 =>
        parse_hello_loop rest2 (some (from_utf8_lossy u, from_utf8_lossy p)) setname
      | [_] => .error "HELLO AUTH missing password"
      | [] => .error "HELLO AUTH missing username"
    else if token_upper == "SETNAME" then
      match rest with
      | n :: rest2 => parse_hello_loop rest2 auth (some (from_utf8_lossy n))
      | [] => .error "HELLO SETNAME missing name"
    else .error ("Unsupported HELLO option: " ++ token_upper)

/-- src/command.rs `parse_hello_args`. -/
def parse_hello_args (current : RespVersion) (args : List ByteStr) :
    Except String HelloRequest :=
  let lead : Option RespVersion × List ByteStr :=
    match args with
    | first :: more =>
      match from_utf8 first with
      | some s =>
        if s == "2" then (some RespVersion.Resp2, more)
        else if s == "3" then (some RespVersion.Resp3, more)
        else (none, args)
      | none => (none, args)
    | [] => (none, [])
  match parse_hello_loop lead.2 none none with
  | .error e => .error e
  | .ok (auth, setname) =>
    .ok { protover :=
            match lead.1 with
            | some v => some v
            | none => some current,
          auth := auth, setname := setname }

/-- src/command.rs `parse_resp2`. -/
def parse_resp2 (frame : Resp2Frame) : Except String Request :=
  match parse_resp2_command_parts frame with
  | .error e => .error e
  | .ok (name, args) =>
    if name == "HELLO" then (parse_hello_args RespVersion.Resp2 args).map Request.Hello
    else .ok (Request.Command { name_upper := name, args := args })

/-- src/command.rs `parse_resp3`. -/
def parse_resp3 (frame : Resp3Frame) : Except String Request :=
  match frame with
  | .Hello version auth setname =>
    .ok (Request.Hello { protover := some version, auth := auth, setname := setname })
  | _ =>
    match parse_resp3_command_parts frame with
    | .error e => .error e
    | .ok (name, args) =>
      if name == "HELLO" then (parse_hello_args RespVersion.Resp3 args).map Request.Hello
      else .ok (Request.Command { name_upper := name, args := args })

/-- src/command.rs `parse_request`. -/
def parse_request (frame : Frame) : Except String Request :=
  match frame with
  | .Resp2 f => parse_resp2 f
  | .Resp3 f => parse_resp3 f

/-! ## src/proxy.rs routing core -/

/-- src/proxy.rs `ConnState`. -/
structure ConnState where
  in_multi : Bool
  watch_active : Bool
  deriving DecidableEq, Repr

/-- src/proxy.rs `is_auth_exempt`. -/
def is_auth_exempt (cmd : ParsedCommand) : Bool :=
  cmd.name_upper == "AUTH" || cmd.name_upper == "HELLO" || cmd.name_upper == "QUIT"

/-- src/proxy.rs `decide_route`. -/
def decide_route (cmd : ParsedCommand) (first_arg_upper : Option String)
    (state : ConnState) (replica_available : Bool) : Route :=
  if state.in_multi || state.watch_active then Route.Master
  else if is_always_master cmd.name_upper then Route.Master
  else if is_dual_forward cmd.name_upper first_arg_upper then Route.Both
  else if replica_available && is_replica_read_whitelisted cmd.name_upper then Route.Replica
  else Route.Master

/-- src/proxy.rs `update_state`. -/
def update_state (state : ConnState) (cmd : ParsedCommand) : ConnState :=
  if cmd.name_upper == "MULTI" then { state with in_multi := true }
  else if cmd.name_upper == "EXEC" || cmd.name_upper == "DISCARD" then
    { state with in_multi := false, watch_active := false }
  else if cmd.name_upper == "WATCH" then { state with watch_active := true }
  else if cmd.name_upper == "UNWATCH" then { state with watch_active := false }
  else state

/-! ## src/config.rs -/

/-- src/config.rs `ProxyAuth`. -/
structure ProxyAuth where
  enabled : Bool
  username : String
  password : String
  deriving DecidableEq, Repr

/-- src/config.rs `ProxyAuth::verify`. -/
def ProxyAuth.verify (pa : ProxyAuth) (username password : String) : Bool :=
  if !pa.enabled then true
  else pa.username == username && pa.password == password

/-! ## src/proxy.rs forwarding strategies

The tokio I/O of one step is modelled by an explicit environment: what the
master sends back (out-of-band RESP3 push frames, then one reply), whether
a write to the replica socket succeeds, and the outcome of the one timed
replica read.  Master writes in the embedding are the writes that the code
performs; the environment makes them succeed (a failed master interaction
terminates the session in the code and truncates the step). -/

/-- Outcome of `timeout(replica_timeout, replica.read_frame())`. -/
inductive ReplicaReadOutcome
  | reply (raw : ByteStr)
  | eof
  | readErr
  | timedOut
  deriving DecidableEq, Repr

/-- I/O behaviour of the backends during one step. -/
structure StepEnv where
  masterPushes : List ByteStr
  masterReply : ByteStr
  replicaWriteOk : Bool
  replicaRead : ReplicaReadOutcome
  deriving DecidableEq, Repr

/-- Bytes written by one forwarding strategy.  `replicaOk` is the strategy's
verdict on the replica: for `forward_replica_with_fallback` it is the
returned `Ok(true/false)`; for `forward_both` it is whether the replica
survives the call. -/
structure FwdResult where
  masterWrites : List ByteStr
  replicaWrites : List ByteStr
  clientWrites : List ByteStr
  replicaOk : Bool
  deriving DecidableEq, Repr

/-- src/proxy.rs `forward_master` (with `read_one_reply_from_master`
forwarding push frames to the client before the reply). -/
def forward_master (env : StepEnv) (raw : ByteStr) : FwdResult :=
  { masterWrites := [raw]
    replicaWrites := []
    clientWrites := env.masterPushes ++ [env.masterReply]
    replicaOk := true }

/-- src/proxy.rs `forward_replica_with_fallback`. -/
def forward_replica_with_fallback (env : StepEnv) (raw : ByteStr) : FwdResult :=
  if !env.replicaWriteOk then
    { forward_master env raw with replicaOk := false }
  else
    match env.replicaRead with
    | .reply r =>
      { masterWrites := [], replicaWrites := [raw], clientWrites := [r], replicaOk := true }
    | _ =>
      { forward_master env raw with replicaWrites := [raw], replicaOk := false }

/-- src/proxy.rs `forward_both`.  `replicaPresent` is `replica.is_some()`
at entry; the result's `replicaOk` tells whether the replica is still
present afterwards. -/
def forward_both (env : StepEnv) (replicaPresent : Bool) (raw : ByteStr) : FwdResult :=
  let repAfterWrite := replicaPresent && env.replicaWriteOk
  let repFinal :=
    if repAfterWrite then
      match env.replicaRead with
      | .reply _ => true
      | _ => false
    else false
  { masterWrites := [raw]
    replicaWrites := if repAfterWrite then [raw] else []
    clientWrites := env.masterPushes ++ [env.masterReply]
    replicaOk := repFinal }

/-! ## src/proxy.rs session machine -/

/-- The per-session mutable state of `handle_client_inner`: the auth flag,
the `ConnState`, whether the replica slot is `Some`, and the protocol
versions of the three streams. -/
structure SessionState where
  authenticated : Bool
  state : ConnState
  replica : Bool
  clientVer : RespVersion
  masterVer : RespVersion
  replicaVer : RespVersion
  deriving DecidableEq, Repr

/-- Everything one loop iteration of `handle_client_inner` does: the new
session state, the bytes written to each socket, the `stats.record` and
`stats.record_replica_fallback` calls, and whether the loop breaks. -/
structure StepResult where
  state : SessionState
  masterWrites : List ByteStr
  replicaWrites : List ByteStr
  clientWrites : List ByteStr
  records : List (Route × String)
  fallbackRecords : List String
  closed : Bool
  deriving DecidableEq, Repr

/-- A step that writes nothing and does not change the session state. -/
def emptyStep (s : SessionState) : StepResult :=
  { state := s, masterWrites := [], replicaWrites := [], clientWrites := []
    records := [], fallbackRecords := [], closed := false }

/-- src/proxy.rs `handle_auth` (client replies and the new auth flag). -/
def handle_auth (proxy_auth : ProxyAuth) (authenticated : Bool) (cmd : ParsedCommand) :
    List ByteStr × Bool :=
  match cmd.args with
  | [p] =>
    if proxy_auth.verify "default" (from_utf8_lossy p) then
      ([strBytes "+OK\r\n"], true)
    else
      ([strBytes "-WRONGPASS invalid username-password pair\r\n"], authenticated)
  | [u, p] =>
    if proxy_auth.verify (from_utf8_lossy u) (from_utf8_lossy p) then
      ([strBytes "+OK\r\n"], true)
    else
      ([strBytes "-WRONGPASS invalid username-password pair\r\n"], authenticated)
  | _ =>
    ([strBytes "-ERR wrong number of arguments for \x27auth\x27 command\r\n"], authenticated)

/-- The version token the proxy puts into its re-encoded HELLO. -/
def verByteStr : RespVersion → ByteStr
  | .Resp2 => strBytes "2"
  | .Resp3 => strBytes "3"

/-- The backend HELLO command built locally in src/proxy.rs `handle_hello`:
`HELLO <target> [SETNAME <name>]` — the client's AUTH is not part of it. -/
def hello_backend_cmd (target : RespVersion) (setname : Option String) : ByteStr :=
  encode_command ([strBytes "HELLO", verByteStr target] ++
    (match setname with
     | some n => [strBytes "SETNAME", strBytes n]
     | none => []))

/-- src/proxy.rs `handle_hello`. -/
def handle_hello (pa : ProxyAuth) (env : StepEnv) (s : SessionState)
    (hello : HelloRequest) : StepResult :=
  let gate : Sum ByteStr Bool :=
    if pa.enabled then
      match hello.auth with
      | some (u, p) =>
        if pa.verify u p then Sum.inr true
        else Sum.inl (strBytes "-WRONGPASS invalid username-password pair\r\n")
      | none =>
        if s.authenticated then Sum.inr s.authenticated
        else Sum.inl (strBytes "-NOAUTH Authentication required.\r\n")
    else Sum.inr s.authenticated
  match gate with
  | Sum.inl reply => { emptyStep s with clientWrites := [reply] }
  | Sum.inr authed =>
    let target := hello.protover.getD s.clientVer
    let cmd := hello_backend_cmd target hello.setname
    let repAfterWrite := s.replica && env.replicaWriteOk
    let repFinal :=
      if repAfterWrite then
        match env.replicaRead with
        | .reply _ => true
        | _ => false
      else false
    { state := { s with
                 authenticated := authed, replica := repFinal
                 clientVer := target, masterVer := target
                 replicaVer := if repAfterWrite then target else s.replicaVer }
      masterWrites := [cmd]
      replicaWrites := if repAfterWrite then [cmd] else []
      clientWrites := env.masterPushes ++ [env.masterReply]
      records := [(if s.replica then Route.Both else Route.Master, "HELLO")]
      fallbackRecords := []
      closed := false }

/-- src/proxy.rs `handle_client_inner`: `first_arg_upper` for routing. -/
def first_arg_upper_of (cmd : ParsedCommand) : Option String :=
  (cmd.args.head?.bind from_utf8).map str_to_ascii_uppercase

/-- The `Request::Command` arm of the `handle_client_inner` loop: auth
gate, local AUTH/QUIT, then route, forward and `update_state`. -/
def handle_command (pa : ProxyAuth) (env : StepEnv) (s : SessionState)
    (cmd : ParsedCommand) (raw : ByteStr) : StepResult :=
  if !s.authenticated && !is_auth_exempt cmd then
    { emptyStep s with clientWrites := [strBytes "-NOAUTH Authentication required.\r\n"] }
  else if cmd.name_upper == "AUTH" then
    let r := handle_auth pa s.authenticated cmd
    { emptyStep { s with authenticated := r.2 } with clientWrites := r.1 }
  else if cmd.name_upper == "QUIT" then
    { emptyStep s with clientWrites := [strBytes "+OK\r\n"], closed := true }
  else
    let route := decide_route cmd (first_arg_upper_of cmd) s.state s.replica
    let afterRoute : StepResult :=
      match route with
      | .Master =>
        let f := forward_master env raw
        { emptyStep s with
          masterWrites := f.masterWrites, replicaWrites := f.replicaWrites
          clientWrites := f.clientWrites, records := [(Route.Master, cmd.name_upper)] }
      | .Replica =>
        if s.replica then
          let f := forward_replica_with_fallback env raw
          if !f.replicaOk then
            { emptyStep { s with replica := false } with
              masterWrites := f.masterWrites, replicaWrites := f.replicaWrites
              clientWrites := f.clientWrites, records := [(Route.Replica, cmd.name_upper)]
              fallbackRecords := [cmd.name_upper] }
          else
            { emptyStep s with
              masterWrites := f.masterWrites
              replicaWrites := f.replicaWrites, clientWrites := f.clientWrites
              records := [(Route.Replica, cmd.name_upper)] }
        else
          let f := forward_master env raw
          { emptyStep s with
            masterWrites := f.masterWrites, replicaWrites := f.replicaWrites
            clientWrites := f.clientWrites, records := [(Route.Master, cmd.name_upper)] }
      | .Both =>
        if s.replica then
          let f := forward_both env s.replica raw
          { emptyStep { s with replica := f.replicaOk } with
            masterWrites := f.masterWrites, replicaWrites := f.replicaWrites
            clientWrites := f.clientWrites, records := [(Route.Both, cmd.name_upper)] }
        else
          let f := forward_master env raw
          { emptyStep s with
            masterWrites := f.masterWrites, replicaWrites := f.replicaWrites
            clientWrites := f.clientWrites, records := [(Route.Master, cmd.name_upper)] }
    { afterRoute with
      state := { afterRoute.state with state := update_state afterRoute.state.state cmd } }

/-- One iteration of the `handle_client_inner` loop on an already parsed
request (`raw` is the exact byte slice the request was decoded from). -/
def sessionStep (pa : ProxyAuth) (env : StepEnv) (s : SessionState)
    (req : Request) (raw : ByteStr) : StepResult :=
  match req with
  | .Hello hello => handle_hello pa env s hello
  | .Command cmd => handle_command pa env s cmd raw

/-- Accumulated effect of running the session loop over a list of parsed
requests (each with its own I/O environment and raw bytes). -/
structure RunResult where
  state : SessionState
  replicaWrites : List ByteStr
  deriving DecidableEq, Repr

/-- The `handle_client_inner` loop: run the steps in order, stopping when a
step closes the session. -/
def sessionRun (pa : ProxyAuth) (s : SessionState) :
    List (StepEnv × Request × ByteStr) → RunResult
  | [] => { state := s, replicaWrites := [] }
  | (env, req, raw) :: rest =>
    let r := sessionStep pa env s req raw
    if r.closed then { state := r.state, replicaWrites := r.replicaWrites }
    else
      let rr := sessionRun pa r.state rest
      { state := rr.state, replicaWrites := r.replicaWrites ++ rr.replicaWrites }

/-! ## src/stats.rs -/

/-- src/stats.rs `CmdStats`. -/
structure CmdStats where
  total : Nat
  replica_fallback_to_master : Nat
  deriving DecidableEq, Repr

/-- src/stats.rs `route_rank`. -/
def route_rank : Route → Nat
  | .Both => 0
  | .Replica => 1
  | .Master => 2

/-- The comparator of src/stats.rs `render_summary_lines`: route rank,
then descending total, then ascending command name. -/
def row_cmp (a b : Route × String × CmdStats) : Ordering :=
  (compare (route_rank a.1) (route_rank b.1)).then
    ((compare b.2.2.total a.2.2.total).then (compare a.2.1 b.2.1))

/-- The comparator `row_cmp` as a `≤` test; Rust's stable `sort_by` is
`List.mergeSort` with this relation. -/
def row_le (a b : Route × String × CmdStats) : Bool := (row_cmp a b).isLE

/-- Rust `format!("{:<w}")`: left-aligned, space-padded on the right. -/
def padRight (s : String) (w : Nat) : String :=
  s ++ String.mk (List.replicate (w - s.length) ' ')

/-- The route label of src/stats.rs `render_summary_lines`. -/
def route_label : Route → String
  | .Both => "BOTH"
  | .Replica => "REPLICA"
  | .Master => "MASTER"

/-- One line of src/stats.rs `render_summary_lines`. -/
def render_row (row : Route × String × CmdStats) : String :=
  let line := padRight (route_label row.1) 7 ++ " " ++ padRight row.2.1 16 ++ " " ++
    Nat.repr row.2.2.total ++ " times"
  if row.1 == Route.Replica && row.2.2.replica_fallback_to_master != 0 then
    line ++ " (fallback " ++ Nat.repr row.2.2.replica_fallback_to_master ++ "times)"
  else line

/-- src/stats.rs `render_summary_lines`, on the map's entries listed in an
arbitrary iteration order. -/
def render_summary_lines (rows : List (Route × String × CmdStats)) : List String :=
  (rows.mergeSort row_le).map render_row

/-! ## Claim-side router definitions (written from the spec's precedence
table, to be compared with `decide_route`). -/

/-- Membership in the spec's always-master set, in the spec's order. -/
def claimAlwaysMaster (n : String) : Bool :=
  n == "MULTI" || n == "EXEC" || n == "DISCARD" || n == "WATCH" || n == "UNWATCH" ||
  n == "EVAL" || n == "EVALSHA" || n == "EVAL_RO" || n == "SCRIPT" || n == "FUNCTION" ||
  n == "FCALL" || n == "FCALL_RO" || n == "MONITOR" ||
  n == "SUBSCRIBE" || n == "PSUBSCRIBE" || n == "SSUBSCRIBE" ||
  n == "UNSUBSCRIBE" || n == "PUNSUBSCRIBE" || n == "SUNSUBSCRIBE"

/-- Membership in the spec's dual-forward predicate: name in
{SELECT, READONLY, READWRITE, HELLO}, or CLIENT with first argument in
{SETNAME, SETINFO, TRACKING, CACHING, REPLY}. -/
def claimDualForward (n : String) (first_arg_upper : Option String) : Bool :=
  (n == "SELECT" || n == "READONLY" || n == "READWRITE" || n == "HELLO") ||
  (n == "CLIENT" &&
    (match first_arg_upper with
     | some f => f == "SETNAME" || f == "SETINFO" || f == "TRACKING" ||
                 f == "CACHING" || f == "REPLY"
     | none => false))

/-- Membership in the spec's replica-read whitelist, in the spec's order. -/
def claimReplicaWhitelist (n : String) : Bool :=
  n == "PING" ||
  n == "SCAN" || n == "SSCAN" || n == "HSCAN" || n == "ZSCAN" ||
  n == "GET" || n == "MGET" || n == "GETRANGE" || n == "STRLEN" ||
  n == "HGET" || n == "HMGET" || n == "HGETALL" || n == "HEXISTS" ||
  n == "HLEN" || n == "HSTRLEN" || n == "HKEYS" || n == "HVALS" ||
  n == "LINDEX" || n == "LLEN" || n == "LRANGE" ||
  n == "SCARD" || n == "SISMEMBER" || n == "SMISMEMBER" ||
  n == "SMEMBERS" || n == "SRANDMEMBER" ||
  n == "ZCARD" || n == "ZCOUNT" || n == "ZRANGE" ||
  n == "ZRANGEBYSCORE" || n == "ZREVRANGE" || n == "ZREVRANGEBYSCORE" ||
  n == "ZRANK" || n == "ZREVRANK" || n == "ZSCORE" || n == "ZMSCORE" ||
  n == "EXISTS" || n == "TYPE" || n == "TTL" || n == "PTTL"

/-- The spec's precedence table, first match wins. -/
def claimRoute (name_upper : String) (first_arg_upper : Option String)
    (in_multi watch_active replica_available : Bool) : Route :=
  if in_multi || watch_active then Route.Master
  else if claimAlwaysMaster name_upper then Route.Master
  else if claimDualForward name_upper first_arg_upper then Route.Both
  else if replica_available && claimReplicaWhitelist name_upper then Route.Replica
  else Route.Master

/-! ## Further claim-side definitions -/

/-- The spec's state-transition table on `name_upper` (claim side). -/
def claimTransition (st : ConnState) (name_upper : String) : ConnState :=
  if name_upper == "MULTI" then { st with in_multi := true }
  else if name_upper == "EXEC" || name_upper == "DISCARD" then
    { st with in_multi := false, watch_active := false }
  else if name_upper == "WATCH" then { st with watch_active := true }
  else if name_upper == "UNWATCH" then { st with watch_active := false }
  else st

/-- The claim's string-like RESP2 command-name frames: bulk string, simple
string, or integer. -/
def claimStringLike2 : Resp2Frame → Bool
  | .BulkString _ => true
  | .SimpleString _ => true
  | .Integer _ => true
  | _ => false

/-- The RESP3 command-name frames the code accepts (amended claim): blob
string, simple string, number, and also big number and verbatim string. -/
def claimStringLike3 : Resp3Frame → Bool
  | .BlobString _ => true
  | .SimpleString _ => true
  | .Number _ => true
  | .BigNumber _ => true
  | .VerbatimString _ => true
  | _ => false

/-- The claim's per-byte ASCII uppercase map. -/
def claimUpperByte (b : Nat) : Nat :=
  if 0x61 ≤ b && b ≤ 0x7A then b - 0x20 else b

/-- The claim's row order for the statistics summary: Both before Replica
before Master, then descending total, then ascending command name. -/
def claimRowOrder (a b : Route × String × CmdStats) : Prop :=
  route_rank a.1 < route_rank b.1 ∨
  (route_rank a.1 = route_rank b.1 ∧
    (b.2.2.total < a.2.2.total ∨
      (a.2.2.total = b.2.2.total ∧ a.2.1 ≤ b.2.1)))

/-- The claim's row format, amended: route and command are left-aligned
(padded on the right) to widths 7 and 16, then the total and " times", and
a fallback suffix exactly on replica rows with a nonzero fallback count. -/
def claimRenderRow (row : Route × String × CmdStats) : String :=
  padRight (route_label row.1) 7 ++ " " ++ padRight row.2.1 16 ++ " " ++
    Nat.repr row.2.2.total ++ " times" ++
    (if row.1 = Route.Replica ∧ 0 < row.2.2.replica_fallback_to_master then
      " (fallback " ++ Nat.repr row.2.2.replica_fallback_to_master ++ "times)"
     else "")

/-- The claim's (incorrect) left-padded row format: route and command
right-aligned, padding spaces on the left. -/
def padLeft (s : String) (w : Nat) : String :=
  String.mk (List.replicate (w - s.length) ' ') ++ s

/-- The claim's row format as literally stated ("left-padded"). -/
def claimRenderRowLeftPad (row : Route × String × CmdStats) : String :=
  padLeft (route_label row.1) 7 ++ " " ++ padLeft row.2.1 16 ++ " " ++
    Nat.repr row.2.2.total ++ " times" ++
    (if row.1 = Route.Replica ∧ 0 < row.2.2.replica_fallback_to_master then
      " (fallback " ++ Nat.repr row.2.2.replica_fallback_to_master ++ "times)"
     else "")

/-! ## Concrete inputs for counterexamples and witnesses -/

/-- src/config.rs `ProxyAuth::disabled`. -/
def proxy_auth_disabled : ProxyAuth :=
  { enabled := false, username := "default", password := "" }

/-- A proxy auth configuration requiring `default`/`secret`. -/
def proxy_auth_secret : ProxyAuth :=
  { enabled := true, username := "default", password := "secret" }

/-- A benign I/O environment: no pushes, master replies `+OK\r\n`, replica
writes succeed and the replica replies `+OK\r\n` in time. -/
def envOk : StepEnv :=
  { masterPushes := [], masterReply := strBytes "+OK\r\n"
    replicaWriteOk := true, replicaRead := .reply (strBytes "+OK\r\n") }

/-- A session that is authenticated, inside MULTI, with a live replica. -/
def stateInMulti : SessionState :=
  { authenticated := true, state := { in_multi := true, watch_active := false }
    replica := true, clientVer := .Resp2, masterVer := .Resp2, replicaVer := .Resp2 }

/-- A session that is authenticated, outside MULTI/WATCH, with a live replica. -/
def stateIdle : SessionState :=
  { authenticated := true, state := { in_multi := false, watch_active := false }
    replica := true, clientVer := .Resp2, masterVer := .Resp2, replicaVer := .Resp2 }

/-- The idle session with the replica slot already empty. -/
def stateNoReplica : SessionState :=
  { stateIdle with replica := false }

/-- A single summary row used to exhibit the padding direction. -/
def c9row : Route × String × CmdStats :=
  (Route.Both, "GET", { total := 2, replica_fallback_to_master := 0 })

/-! ## Set lemmas: the source predicates agree with the spec's sets. -/

lemma always_master_agrees (n : String) : is_always_master n = claimAlwaysMaster n := by
  unfold is_always_master claimAlwaysMaster
  cases h1 : n == "PUNSUBSCRIBE" <;> cases h2 : n == "UNSUBSCRIBE" <;> simp [h1, h2]

lemma dual_forward_agrees (n : String) (f : Option String) :
    is_dual_forward n f = claimDualForward n f := by
  unfold is_dual_forward claimDualForward
  cases f <;>
    cases h1 : n == "SELECT" <;> cases h2 : n == "READONLY" <;> cases h3 : n == "READWRITE" <;>
    cases h4 : n == "CLIENT" <;> cases h5 : n == "HELLO" <;> simp_all [beq_iff_eq]

lemma replica_whitelist_agrees (n : String) :
    is_replica_read_whitelisted n = claimReplicaWhitelist n := rfl

/-- C1: `decide_route` implements the spec's precedence table exactly. -/
theorem decide_route_matches_spec (cmd : ParsedCommand) (first_arg_upper : Option String)
    (state : ConnState) (replica_available : Bool) :
    decide_route cmd first_arg_upper state replica_available =
      claimRoute cmd.name_upper first_arg_upper state.in_multi state.watch_active
        replica_available := by
  unfold decide_route claimRoute
  rw [always_master_agrees, dual_forward_agrees, replica_whitelist_agrees]

/-! ## Auth-gate reduction helpers -/

lemma gate_false_of_passes {s : SessionState} {cmd : ParsedCommand}
    (hgate : s.authenticated = true ∨ is_auth_exempt cmd = true) :
    (!s.authenticated && !is_auth_exempt cmd) = false := by
  rcases hgate with h | h <;> simp [h]

/-- C5: after a successfully forwarded command the connection state is
updated by exactly the spec's transition table, and the update happens
after routing: the forwarding writes are the ones dictated by
`decide_route` at the pre-transition state. -/
theorem update_state_after_routing (pa : ProxyAuth) (env : StepEnv) (s : SessionState)
    (cmd : ParsedCommand) (raw : ByteStr)
    (hgate : s.authenticated = true ∨ is_auth_exempt cmd = true)
    (hauth : cmd.name_upper ≠ "AUTH") (hquit : cmd.name_upper ≠ "QUIT") :
    (handle_command pa env s cmd raw).state.state = update_state s.state cmd ∧
    update_state s.state cmd = claimTransition s.state cmd.name_upper ∧
    (decide_route cmd (first_arg_upper_of cmd) s.state s.replica = Route.Master →
      (handle_command pa env s cmd raw).masterWrites = [raw] ∧
      (handle_command pa env s cmd raw).replicaWrites = []) ∧
    (decide_route cmd (first_arg_upper_of cmd) s.state s.replica = Route.Both →
      env.replicaWriteOk = true →
      (handle_command pa env s cmd raw).masterWrites = [raw] ∧
      (handle_command pa env s cmd raw).replicaWrites =
        (if s.replica then [raw] else [])) ∧
    (decide_route cmd (first_arg_upper_of cmd) s.state s.replica = Route.Replica →
      s.replica = true → env.replicaWriteOk = true →
      (handle_command pa env s cmd raw).replicaWrites = [raw]) := by
  have h1 := gate_false_of_passes hgate
  have h2 : (cmd.name_upper == "AUTH") = false := by simp [hauth]
  have h3 : (cmd.name_upper == "QUIT") = false := by simp [hquit]
  refine ⟨?_, rfl, ?_, ?_, ?_⟩
  · cases hrep : s.replica <;>
      cases hroute : decide_route cmd (first_arg_upper_of cmd) s.state s.replica <;>
      rw [hrep] at hroute <;>
      cases hw : env.replicaWriteOk <;>
      cases hr : env.replicaRead <;>
      simp [handle_command, h1, h2, h3, hroute, hrep, hw, hr, emptyStep,
            forward_master, forward_replica_with_fallback, forward_both]
  · intro hroute
    cases hrep : s.replica <;>
      rw [hrep] at hroute <;>
      simp [handle_command, h1, h2, h3, hroute, hrep, emptyStep, forward_master]
  · intro hroute hw
    cases hrep : s.replica <;>
      rw [hrep] at hroute <;>
      simp [handle_command, h1, h2, h3, hroute, hrep, hw, emptyStep,
            forward_master, forward_both]
  · intro hroute hrep hw
    rw [hrep] at hroute
    cases hr : env.replicaRead <;>
      simp [handle_command, h1, h2, h3, hroute, hrep, hw, hr, emptyStep,
            forward_master, forward_replica_with_fallback]

theorem update_state_after_routing_witness :
    (handle_command proxy_auth_disabled envOk stateIdle
        { name_upper := "MULTI", args := [] } (strBytes "*1\r\n$5\r\nMULTI\r\n")).state.state =
      update_state stateIdle.state { name_upper := "MULTI", args := [] } ∧
    update_state stateIdle.state { name_upper := "MULTI", args := [] } =
      claimTransition stateIdle.state "MULTI" ∧
    (decide_route { name_upper := "MULTI", args := [] }
        (first_arg_upper_of { name_upper := "MULTI", args := [] })
        stateIdle.state stateIdle.replica = Route.Master →
      (handle_command proxy_auth_disabled envOk stateIdle
          { name_upper := "MULTI", args := [] } (strBytes "*1\r\n$5\r\nMULTI\r\n")).masterWrites =
        [strBytes "*1\r\n$5\r\nMULTI\r\n"] ∧
      (handle_command proxy_auth_disabled envOk stateIdle
          { name_upper := "MULTI", args := [] } (strBytes "*1\r\n$5\r\nMULTI\r\n")).replicaWrites =
        []) ∧
    (decide_route { name_upper := "MULTI", args := [] }
        (first_arg_upper_of { name_upper := "MULTI", args := [] })
        stateIdle.state stateIdle.replica = Route.Both →
      envOk.replicaWriteOk = true →
      (handle_command proxy_auth_disabled envOk stateIdle
          { name_upper := "MULTI", args := [] } (strBytes "*1\r\n$5\r\nMULTI\r\n")).masterWrites =
        [strBytes "*1\r\n$5\r\nMULTI\r\n"] ∧
      (handle_command proxy_auth_disabled envOk stateIdle
          { name_upper := "MULTI", args := [] } (strBytes "*1\r\n$5\r\nMULTI\r\n")).replicaWrites =
        (if stateIdle.replica then [strBytes "*1\r\n$5\r\nMULTI\r\n"] else [])) ∧
    (decide_route { name_upper := "MULTI", args := [] }
        (first_arg_upper_of { name_upper := "MULTI", args := [] })
        stateIdle.state stateIdle.replica = Route.Replica →
      stateIdle.replica = true → envOk.replicaWriteOk = true →
      (handle_command proxy_auth_disabled envOk stateIdle
          { name_upper := "MULTI", args := [] } (strBytes "*1\r\n$5\r\nMULTI\r\n")).replicaWrites =
        [strBytes "*1\r\n$5\r\nMULTI\r\n"]) :=
  update_state_after_routing proxy_auth_disabled envOk stateIdle
    { name_upper := "MULTI", args := [] } (strBytes "*1\r\n$5\r\nMULTI\r\n")
    (Or.inl rfl) (by decide) (by decide)

/-- C2 counterexample: with `in_multi = true` and a live replica, a HELLO
request is still written to the replica backend, so "Master only ...
including HELLO requests" fails. -/
theorem multi_hello_reaches_replica :
    (sessionStep proxy_auth_disabled envOk stateInMulti
        (Request.Hello { protover := some RespVersion.Resp3, auth := none, setname := none })
        (strBytes "HELLO 3\r\n")).replicaWrites ≠ [] := by decide

/-- C2 (amended): while `in_multi` or `watch_active`, every request parsed
as a `Request::Command` writes nothing to the replica, and writes to the
master either nothing (locally answered AUTH/QUIT/NOAUTH) or exactly the
raw request bytes.  (HELLO requests are exempt: they bypass routing and
are dual-forwarded.) -/
theorem multi_watch_command_master_only (pa : ProxyAuth) (env : StepEnv) (s : SessionState)
    (cmd : ParsedCommand) (raw : ByteStr)
    (h : s.state.in_multi = true ∨ s.state.watch_active = true) :
    (sessionStep pa env s (Request.Command cmd) raw).replicaWrites = [] ∧
    ((sessionStep pa env s (Request.Command cmd) raw).masterWrites = [] ∨
      (sessionStep pa env s (Request.Command cmd) raw).masterWrites = [raw]) := by
  have hroute : decide_route cmd (first_arg_upper_of cmd) s.state s.replica = Route.Master := by
    unfold decide_route
    rcases h with h | h <;> simp [h]
  by_cases hg : (!s.authenticated && !is_auth_exempt cmd) = true
  · simp [sessionStep, handle_command, hg, emptyStep]
  · have hg' : (!s.authenticated && !is_auth_exempt cmd) = false := by
      exact Bool.eq_false_iff.mpr hg
    by_cases hA : (cmd.name_upper == "AUTH") = true
    · simp [sessionStep, handle_command, hg', hA, emptyStep]
    · have hA' : (cmd.name_upper == "AUTH") = false := Bool.eq_false_iff.mpr hA
      by_cases hQ : (cmd.name_upper == "QUIT") = true
      · simp [sessionStep, handle_command, hg', hA', hQ, emptyStep]
      · have hQ' : (cmd.name_upper == "QUIT") = false := Bool.eq_false_iff.mpr hQ
        simp [sessionStep, handle_command, hg', hA', hQ', hroute, emptyStep, forward_master]

theorem multi_watch_command_master_only_witness :
    (sessionStep proxy_auth_disabled envOk stateInMulti
        (Request.Command { name_upper := "GET", args := [[107]] })
        (strBytes "*2\r\n$3\r\nGET\r\n$1\r\nk\r\n")).replicaWrites = [] ∧
    ((sessionStep proxy_auth_disabled envOk stateInMulti
        (Request.Command { name_upper := "GET", args := [[107]] })
        (strBytes "*2\r\n$3\r\nGET\r\n$1\r\nk\r\n")).masterWrites = [] ∨
      (sessionStep proxy_auth_disabled envOk stateInMulti
        (Request.Command { name_upper := "GET", args := [[107]] })
        (strBytes "*2\r\n$3\r\nGET\r\n$1\r\nk\r\n")).masterWrites =
        [strBytes "*2\r\n$3\r\nGET\r\n$1\r\nk\r\n"]) :=
  multi_watch_command_master_only proxy_auth_disabled envOk stateInMulti
    { name_upper := "GET", args := [[107]] } (strBytes "*2\r\n$3\r\nGET\r\n$1\r\nk\r\n")
    (Or.inl rfl)

/-- C10: a command whose route decision is Both or Replica while the
session has no replica stream is forwarded master-only and counted under
route Master, and the client gets the master's reply. -/
theorem no_replica_routes_master (pa : ProxyAuth) (env : StepEnv) (s : SessionState)
    (cmd : ParsedCommand) (raw : ByteStr)
    (hrep : s.replica = false)
    (hroute : decide_route cmd (first_arg_upper_of cmd) s.state s.replica = Route.Both ∨
      decide_route cmd (first_arg_upper_of cmd) s.state s.replica = Route.Replica)
    (hgate : s.authenticated = true ∨ is_auth_exempt cmd = true)
    (hauth : cmd.name_upper ≠ "AUTH") (hquit : cmd.name_upper ≠ "QUIT") :
    (handle_command pa env s cmd raw).masterWrites = [raw] ∧
    (handle_command pa env s cmd raw).replicaWrites = [] ∧
    (handle_command pa env s cmd raw).records = [(Route.Master, cmd.name_upper)] ∧
    (handle_command pa env s cmd raw).clientWrites =
      env.masterPushes ++ [env.masterReply] := by
  have h1 := gate_false_of_passes hgate
  have h2 : (cmd.name_upper == "AUTH") = false := by simp [hauth]
  have h3 : (cmd.name_upper == "QUIT") = false := by simp [hquit]
  rcases hroute with hroute | hroute <;>
    rw [hrep] at hroute <;>
    simp [handle_command, h1, h2, h3, hroute, hrep, emptyStep, forward_master]

theorem no_replica_routes_master_witness :
    (handle_command proxy_auth_disabled envOk stateNoReplica
        { name_upper := "SELECT", args := [[49]] }
        (strBytes "*2\r\n$6\r\nSELECT\r\n$1\r\n1\r\n")).masterWrites =
      [strBytes "*2\r\n$6\r\nSELECT\r\n$1\r\n1\r\n"] ∧
    (handle_command proxy_auth_disabled envOk stateNoReplica
        { name_upper := "SELECT", args := [[49]] }
        (strBytes "*2\r\n$6\r\nSELECT\r\n$1\r\n1\r\n")).replicaWrites = [] ∧
    (handle_command proxy_auth_disabled envOk stateNoReplica
        { name_upper := "SELECT", args := [[49]] }
        (strBytes "*2\r\n$6\r\nSELECT\r\n$1\r\n1\r\n")).records =
      [(Route.Master, "SELECT")] ∧
    (handle_command proxy_auth_disabled envOk stateNoReplica
        { name_upper := "SELECT", args := [[49]] }
        (strBytes "*2\r\n$6\r\nSELECT\r\n$1\r\n1\r\n")).clientWrites =
      envOk.masterPushes ++ [envOk.masterReply] :=
  no_replica_routes_master proxy_auth_disabled envOk stateNoReplica
    { name_upper := "SELECT", args := [[49]] }
    (strBytes "*2\r\n$6\r\nSELECT\r\n$1\r\n1\r\n")
    rfl (Or.inl (by decide)) (Or.inl rfl) (by decide) (by decide)

/-- A step taken with the replica slot already empty writes nothing to the
replica and leaves the slot empty. -/
lemma sessionStep_replica_disabled (pa : ProxyAuth) (env : StepEnv) (s : SessionState)
    (req : Request) (raw : ByteStr) (hs : s.replica = false) :
    (sessionStep pa env s req raw).state.replica = false ∧
    (sessionStep pa env s req raw).replicaWrites = [] := by
  cases req with
  | Hello hello =>
    cases hpe : pa.enabled <;>
      rcases hha : hello.auth with _ | ⟨u, p⟩ <;>
      simp [sessionStep, handle_hello, hpe, hha, hs, emptyStep] <;>
      split <;> simp [hs, emptyStep]
  | Command cmd =>
    by_cases hg : (!s.authenticated && !is_auth_exempt cmd) = true
    · simp [sessionStep, handle_command, hg, hs, emptyStep]
    · have hg' := Bool.eq_false_iff.mpr hg
      by_cases hA : (cmd.name_upper == "AUTH") = true
      · simp [sessionStep, handle_command, hg', hA, hs, emptyStep]
      · have hA' := Bool.eq_false_iff.mpr hA
        by_cases hQ : (cmd.name_upper == "QUIT") = true
        · simp [sessionStep, handle_command, hg', hA', hQ, hs, emptyStep]
        · have hQ' := Bool.eq_false_iff.mpr hQ
          cases hroute : decide_route cmd (first_arg_upper_of cmd) s.state false <;>
            simp [sessionStep, handle_command, hg', hA', hQ', hs, hroute, emptyStep,
                  forward_master]

/-- C6: within a session the replica slot only transitions from present to
absent, and once it is absent no step of the remaining session writes any
bytes to the replica. -/
theorem replica_disable_is_permanent (pa : ProxyAuth) :
    (∀ env s req raw,
      (sessionStep pa env s req raw).state.replica = true → s.replica = true) ∧
    (∀ s trace, s.replica = false →
      (sessionRun pa s trace).replicaWrites = [] ∧
      (sessionRun pa s trace).state.replica = false) := by
  constructor
  · intro env s req raw h
    cases hs : s.replica
    · exact absurd ((sessionStep_replica_disabled pa env s req raw hs).1 ▸ h) (by simp)
    · rfl
  · intro s trace
    induction trace generalizing s with
    | nil => intro hs; simp [sessionRun, hs]
    | cons step rest ih =>
      intro hs
      obtain ⟨env, req, raw⟩ := step
      obtain ⟨h1, h2⟩ := sessionStep_replica_disabled pa env s req raw hs
      by_cases hc : (sessionStep pa env s req raw).closed
      · simp [sessionRun, hc, h1, h2]
      · obtain ⟨ih1, ih2⟩ := ih _ h1
        simp [sessionRun, hc, h1, h2, ih1, ih2]

theorem replica_disable_is_permanent_witness :
    stateIdle.replica = true ∧
    (sessionRun proxy_auth_disabled stateNoReplica
        [(envOk, Request.Command { name_upper := "GET", args := [[107]] },
          strBytes "*2\r\n$3\r\nGET\r\n$1\r\nk\r\n")]).replicaWrites = [] ∧
    (sessionRun proxy_auth_disabled stateNoReplica
        [(envOk, Request.Command { name_upper := "GET", args := [[107]] },
          strBytes "*2\r\n$3\r\nGET\r\n$1\r\nk\r\n")]).state.replica = false :=
  ⟨(replica_disable_is_permanent proxy_auth_disabled).1 envOk stateIdle
      (Request.Command { name_upper := "GET", args := [[107]] })
      (strBytes "*2\r\n$3\r\nGET\r\n$1\r\nk\r\n") (by decide),
   (replica_disable_is_permanent proxy_auth_disabled).2 stateNoReplica
      [(envOk, Request.Command { name_upper := "GET", args := [[107]] },
        strBytes "*2\r\n$3\r\nGET\r\n$1\r\nk\r\n")] rfl⟩

/-- C3: on replica write failure, read error, EOF or timeout the same raw
bytes are forwarded to the master, the master's reply (after any pushes)
goes to the client, and the function signals that the replica must be
disabled; on a timely replica reply, the replica's reply goes to the
client and the replica stays enabled. -/
theorem replica_fallback_behaviour (env : StepEnv) (raw : ByteStr) :
    ((env.replicaWriteOk = false ∨ env.replicaRead = ReplicaReadOutcome.eof ∨
        env.replicaRead = ReplicaReadOutcome.readErr ∨
        env.replicaRead = ReplicaReadOutcome.timedOut) →
      (forward_replica_with_fallback env raw).masterWrites = [raw] ∧
      (forward_replica_with_fallback env raw).clientWrites =
        env.masterPushes ++ [env.masterReply] ∧
      (forward_replica_with_fallback env raw).replicaOk = false) ∧
    (∀ r, env.replicaWriteOk = true → env.replicaRead = ReplicaReadOutcome.reply r →
      (forward_replica_with_fallback env raw).clientWrites = [r] ∧
      (forward_replica_with_fallback env raw).replicaOk = true ∧
      (forward_replica_with_fallback env raw).masterWrites = []) := by
  constructor
  · intro h
    cases hw : env.replicaWriteOk
    · simp [forward_replica_with_fallback, hw, forward_master]
    · rcases h with h | h | h | h
      · exact absurd hw (h ▸ by simp)
      all_goals simp [forward_replica_with_fallback, hw, h, forward_master]
  · intro r hw hr
    simp [forward_replica_with_fallback, hw, hr]

theorem replica_fallback_behaviour_witness :
    (((envOk.replicaWriteOk = false ∨
        envOk.replicaRead = ReplicaReadOutcome.eof ∨
        envOk.replicaRead = ReplicaReadOutcome.readErr ∨
        envOk.replicaRead = ReplicaReadOutcome.timedOut) →
      (forward_replica_with_fallback envOk (strBytes "*1\r\n$4\r\nPING\r\n")).masterWrites =
        [strBytes "*1\r\n$4\r\nPING\r\n"] ∧
      (forward_replica_with_fallback envOk (strBytes "*1\r\n$4\r\nPING\r\n")).clientWrites =
        envOk.masterPushes ++ [envOk.masterReply] ∧
      (forward_replica_with_fallback envOk (strBytes "*1\r\n$4\r\nPING\r\n")).replicaOk =
        false) ∧
    (∀ r, envOk.replicaWriteOk = true → envOk.replicaRead = ReplicaReadOutcome.reply r →
      (forward_replica_with_fallback envOk (strBytes "*1\r\n$4\r\nPING\r\n")).clientWrites =
        [r] ∧
      (forward_replica_with_fallback envOk (strBytes "*1\r\n$4\r\nPING\r\n")).replicaOk =
        true ∧
      (forward_replica_with_fallback envOk (strBytes "*1\r\n$4\r\nPING\r\n")).masterWrites =
        [])) ∧
    (forward_replica_with_fallback envOk (strBytes "*1\r\n$4\r\nPING\r\n")).clientWrites =
      [strBytes "+OK\r\n"] :=
  ⟨replica_fallback_behaviour envOk (strBytes "*1\r\n$4\r\nPING\r\n"),
   ((replica_fallback_behaviour envOk (strBytes "*1\r\n$4\r\nPING\r\n")).2
      (strBytes "+OK\r\n") rfl rfl).1⟩

/-- C4: when the HELLO gate passes, the command written to the master (and,
when written at all, to the replica) is exactly the locally re-encoded
`HELLO <target> [SETNAME <name>]`.  `hello_backend_cmd` takes only the
target version and the SETNAME value, so the client's AUTH credentials
cannot appear in the backend bytes. -/
theorem hello_strips_client_auth (pa : ProxyAuth) (env : StepEnv) (s : SessionState)
    (hello : HelloRequest)
    (hgate : pa.enabled = false ∨
      (∃ u p, hello.auth = some (u, p) ∧ pa.verify u p = true) ∨
      (hello.auth = none ∧ s.authenticated = true)) :
    (handle_hello pa env s hello).masterWrites =
      [hello_backend_cmd (hello.protover.getD s.clientVer) hello.setname] ∧
    ((handle_hello pa env s hello).replicaWrites = [] ∨
      (handle_hello pa env s hello).replicaWrites =
        [hello_backend_cmd (hello.protover.getD s.clientVer) hello.setname]) := by
  rcases hgate with hpe | ⟨u, p, hha, hv⟩ | ⟨hha, hsa⟩
  · by_cases h : (s.replica && env.replicaWriteOk) = true <;>
      simp [handle_hello, hpe, h]
  · by_cases hpe : pa.enabled = true <;>
      by_cases h : (s.replica && env.replicaWriteOk) = true <;>
      simp [handle_hello, hpe, hha, hv, h]
  · by_cases hpe : pa.enabled = true <;>
      by_cases h : (s.replica && env.replicaWriteOk) = true <;>
      simp [handle_hello, hpe, hha, hsa, h]

theorem hello_strips_client_auth_witness :
    ((handle_hello proxy_auth_secret envOk stateIdle
        { protover := some RespVersion.Resp3, auth := some ("default", "secret"),
          setname := some "app" }).masterWrites =
      [hello_backend_cmd
        (({ protover := some RespVersion.Resp3, auth := some ("default", "secret"),
            setname := some "app" } : HelloRequest).protover.getD stateIdle.clientVer)
        ({ protover := some RespVersion.Resp3, auth := some ("default", "secret"),
            setname := some "app" } : HelloRequest).setname] ∧
    ((handle_hello proxy_auth_secret envOk stateIdle
        { protover := some RespVersion.Resp3, auth := some ("default", "secret"),
          setname := some "app" }).replicaWrites = [] ∨
      (handle_hello proxy_auth_secret envOk stateIdle
        { protover := some RespVersion.Resp3, auth := some ("default", "secret"),
          setname := some "app" }).replicaWrites =
        [hello_backend_cmd
          (({ protover := some RespVersion.Resp3, auth := some ("default", "secret"),
              setname := some "app" } : HelloRequest).protover.getD stateIdle.clientVer)
          ({ protover := some RespVersion.Resp3, auth := some ("default", "secret"),
              setname := some "app" } : HelloRequest).setname])) ∧
    hello_backend_cmd RespVersion.Resp3 (some "app") =
      strBytes "*4\r\n$5\r\nHELLO\r\n$1\r\n3\r\n$7\r\nSETNAME\r\n$3\r\napp\r\n" :=
  ⟨hello_strips_client_auth proxy_auth_secret envOk stateIdle
      { protover := some RespVersion.Resp3, auth := some ("default", "secret"),
        setname := some "app" }
      (Or.inr (Or.inl ⟨"default", "secret", rfl, by decide⟩)),
   by decide⟩

/-- C7 counterexample: a RESP3 big-number frame in the command-name
position is accepted (name "1"), although the claim says any frame other
than blob/bulk, simple string, or integer/number is rejected. -/
theorem resp3_bignumber_name_accepted :
    parse_resp3_command_parts (Resp3Frame.Array [Resp3Frame.BigNumber [49]]) =
      Except.ok ("1", ([] : List ByteStr)) := rfl

/-- C7 (amended): the empty array is an error; a RESP2 command name is
accepted exactly for bulk-string, simple-string and integer frames; a
RESP3 command name is accepted exactly for blob-string, simple-string,
number, big-number and verbatim-string frames. -/
theorem command_name_frame_acceptance :
    (∀ it, (resp2_item_to_bytes it).isSome = claimStringLike2 it) ∧
    (∀ it, (resp3_item_to_bytes it).isSome = claimStringLike3 it) ∧
    parse_resp2_command_parts (Resp2Frame.Array []) = Except.error "Empty request array" ∧
    parse_resp3_command_parts (Resp3Frame.Array []) = Except.error "Empty request array" ∧
    (∀ first rest, claimStringLike2 first = false →
      parse_resp2_command_parts (Resp2Frame.Array (first :: rest)) =
        Except.error "Invalid command name frame") ∧
    (∀ first rest, claimStringLike3 first = false →
      parse_resp3_command_parts (Resp3Frame.Array (first :: rest)) =
        Except.error "Invalid command name frame") ∧
    (∀ first rest r,
      parse_resp2_command_parts (Resp2Frame.Array (first :: rest)) = Except.ok r →
      claimStringLike2 first = true) ∧
    (∀ first rest r,
      parse_resp3_command_parts (Resp3Frame.Array (first :: rest)) = Except.ok r →
      claimStringLike3 first = true) := by
  refine ⟨?_, ?_, rfl, rfl, ?_, ?_, ?_, ?_⟩
  · intro it; cases it <;> rfl
  · intro it; cases it <;> rfl
  · intro first rest hf
    cases first <;>
      simp_all [parse_resp2_command_parts, resp2_item_to_bytes, claimStringLike2]
  · intro first rest hf
    cases first <;>
      simp_all [parse_resp3_command_parts, resp3_item_to_bytes, claimStringLike3]
  · intro first rest r hok
    cases first <;>
      simp_all [parse_resp2_command_parts, resp2_item_to_bytes, claimStringLike2]
  · intro first rest r hok
    cases first <;>
      simp_all [parse_resp3_command_parts, resp3_item_to_bytes, claimStringLike3]

theorem command_name_frame_acceptance_witness :
    parse_resp3_command_parts (Resp3Frame.Array [Resp3Frame.Boolean true]) =
      Except.error "Invalid command name frame" ∧
    claimStringLike2 (Resp2Frame.BulkString [103, 101, 116]) = true :=
  ⟨command_name_frame_acceptance.2.2.2.2.2.1 (Resp3Frame.Boolean true) [] rfl,
   command_name_frame_acceptance.2.2.2.2.2.2.1 (Resp2Frame.BulkString [103, 101, 116]) []
     ("GET", []) rfl⟩

/-! ## Claim C8: ascii_upper -/

lemma char_ofNat_toNat_small : ∀ b, b < 256 → (Char.ofNat b).toNat = b := by decide

lemma char_utf8Size_small :
    ∀ b, b < 256 → (Char.ofNat b).utf8Size = if b ≤ 0x7F then 1 else 2 := by decide

lemma utf8ByteSize_mk (l : List Char) :
    (String.mk l).utf8ByteSize = (l.map Char.utf8Size).sum := by
  induction l with
  | nil => rfl
  | cons c cs ih =>
    have hstep : (String.mk (c :: cs)).utf8ByteSize =
        (String.mk cs).utf8ByteSize + c.utf8Size := rfl
    rw [hstep, ih]
    simp [Nat.add_comm]

lemma claimUpperByte_lt (b : Nat) (hb : b < 256) : claimUpperByte b < 256 := by
  unfold claimUpperByte; split <;> omega

lemma claimUpperByte_le_7F (b : Nat) : claimUpperByte b ≤ 0x7F ↔ b ≤ 0x7F := by
  unfold claimUpperByte
  split
  · simp_all
    omega
  · simp

/-- C8 counterexample: the byte 0xFF is not "left exactly as-is" at the
byte level — the output string's UTF-8 byte length is 2, not 1. -/
theorem ascii_upper_length_counterexample :
    (ascii_upper [255]).utf8ByteSize ≠ ([255] : ByteStr).length := by decide

/-- C8 (amended): `ascii_upper` maps each byte to one character — bytes
0x61–0x7A to the corresponding 0x41–0x5A, every other byte to the Unicode
scalar of the same value — so the character count equals the input byte
count, but each input byte ≥ 0x80 occupies two bytes in the output's UTF-8
form, so the byte length is the input length plus the number of bytes
≥ 0x80. -/
theorem ascii_upper_amended (bytes : ByteStr) (h : ∀ b ∈ bytes, b < 256) :
    (ascii_upper bytes).data.map Char.toNat = bytes.map claimUpperByte ∧
    (ascii_upper bytes).utf8ByteSize =
      bytes.length + (bytes.filter (fun b => 0x80 ≤ b)).length := by
  constructor
  · show (bytes.map fun b =>
        Char.ofNat (if 0x61 ≤ b && b ≤ 0x7A then b - 0x20 else b)).map Char.toNat =
      bytes.map claimUpperByte
    rw [List.map_map]
    refine List.map_congr_left ?_
    intro b hb
    exact char_ofNat_toNat_small _ (claimUpperByte_lt b (h b hb))
  · rw [show ascii_upper bytes = String.mk (bytes.map fun b =>
        Char.ofNat (if 0x61 ≤ b && b ≤ 0x7A then b - 0x20 else b)) from rfl]
    rw [utf8ByteSize_mk, List.map_map]
    induction bytes with
    | nil => rfl
    | cons b bs ih =>
      have hb : b < 256 := h b (List.mem_cons_self b bs)
      have ih' := ih fun x hx => h x (List.mem_cons_of_mem _ hx)
      have hsize := char_utf8Size_small (claimUpperByte b) (claimUpperByte_lt b hb)
      simp only [List.map_cons, List.sum_cons, List.filter_cons, List.length_cons]
      rw [show (Char.utf8Size ∘ fun b =>
          Char.ofNat (if 0x61 ≤ b && b ≤ 0x7A then b - 0x20 else b)) b =
          (Char.ofNat (claimUpperByte b)).utf8Size from rfl]
      rw [hsize, ih']
      by_cases hbig : (0x80 : Nat) ≤ b
      · have h7 : ¬ claimUpperByte b ≤ 0x7F := by
          rw [claimUpperByte_le_7F]; omega
        simp [h7, hbig]
        omega
      · have h7 : claimUpperByte b ≤ 0x7F := by
          rw [claimUpperByte_le_7F]; omega
        simp [h7, hbig]
        omega

theorem ascii_upper_amended_witness :
    (ascii_upper [103, 101, 116, 255]).data.map Char.toNat =
      ([103, 101, 116, 255] : ByteStr).map claimUpperByte ∧
    (ascii_upper [103, 101, 116, 255]).utf8ByteSize =
      ([103, 101, 116, 255] : ByteStr).length +
        (([103, 101, 116, 255] : ByteStr).filter (fun b => 0x80 ≤ b)).length :=
  ascii_upper_amended [103, 101, 116, 255] (by decide)

/-! ## Claim C9: the statistics summary -/

lemma isLE_iff_ne_gt (o : Ordering) : o.isLE = true ↔ o ≠ Ordering.gt := by
  cases o <;> simp [Ordering.isLE]

/-- The source comparator accepts `a` before `b` exactly when the claim's
row order holds. -/
lemma row_le_iff (a b : Route × String × CmdStats) :
    row_le a b = true ↔ claimRowOrder a b := by
  unfold row_le row_cmp claimRowOrder
  rw [isLE_iff_ne_gt, Ne, Ordering.then_eq_gt, Ordering.then_eq_gt]
  rw [compare_gt_iff_gt, compare_eq_iff_eq, compare_gt_iff_gt, compare_eq_iff_eq,
      compare_gt_iff_gt]
  constructor
  · intro h
    push_neg at h
    obtain ⟨h1, h2⟩ := h
    rcases eq_or_lt_of_le h1 with hr | hr
    · refine Or.inr ⟨hr, ?_⟩
      obtain ⟨ht, h3⟩ := h2 hr
      rcases eq_or_lt_of_le ht with he | he
      · exact Or.inr ⟨he.symm, h3 he⟩
      · exact Or.inl he
    · exact Or.inl hr
  · intro h
    push_neg
    rcases h with h | ⟨hr, h⟩
    · exact ⟨by omega, fun he => absurd he (by omega)⟩
    · refine ⟨by omega, fun _ => ?_⟩
      rcases h with h | ⟨ht, hc⟩
      · exact ⟨by omega, fun he => absurd he (by omega)⟩
      · exact ⟨by omega, fun _ => hc⟩

lemma claimRowOrder_trans (a b c : Route × String × CmdStats)
    (hab : claimRowOrder a b) (hbc : claimRowOrder b c) : claimRowOrder a c := by
  unfold claimRowOrder at *
  rcases hab with h1 | ⟨e1, h1⟩ <;> rcases hbc with h2 | ⟨e2, h2⟩
  · exact Or.inl (by omega)
  · exact Or.inl (by omega)
  · exact Or.inl (by omega)
  · refine Or.inr ⟨by omega, ?_⟩
    rcases h1 with h1 | ⟨t1, hc1⟩ <;> rcases h2 with h2 | ⟨t2, hc2⟩
    · exact Or.inl (by omega)
    · exact Or.inl (by omega)
    · exact Or.inl (by omega)
    · exact Or.inr ⟨by omega, le_trans hc1 hc2⟩

lemma claimRowOrder_total (a b : Route × String × CmdStats) :
    claimRowOrder a b ∨ claimRowOrder b a := by
  unfold claimRowOrder
  rcases Nat.lt_trichotomy (route_rank a.1) (route_rank b.1) with h | h | h
  · exact Or.inl (Or.inl h)
  · rcases Nat.lt_trichotomy b.2.2.total a.2.2.total with h2 | h2 | h2
    · exact Or.inl (Or.inr ⟨h, Or.inl h2⟩)
    · rcases le_total a.2.1 b.2.1 with h3 | h3
      · exact Or.inl (Or.inr ⟨h, Or.inr ⟨h2.symm, h3⟩⟩)
      · exact Or.inr (Or.inr ⟨h.symm, Or.inr ⟨h2, h3⟩⟩)
    · exact Or.inr (Or.inr ⟨h.symm, Or.inl h2⟩)
  · exact Or.inr (Or.inl h)

/-- The source row format agrees with the (amended) claim's row format. -/
lemma render_row_eq (row : Route × String × CmdStats) :
    render_row row = claimRenderRow row := by
  unfold render_row claimRenderRow
  by_cases h : row.1 = Route.Replica ∧ 0 < row.2.2.replica_fallback_to_master
  · obtain ⟨h1, h2⟩ := h
    have h2' : row.2.2.replica_fallback_to_master ≠ 0 := by omega
    simp [h1, h2, h2', String.append_assoc]
    simp [← String.append_assoc]
  · have hb : (row.1 == Route.Replica && row.2.2.replica_fallback_to_master != 0) = false := by
      rcases not_and_or.mp h with h1 | h1
      · simp [h1]
      · have h0 : row.2.2.replica_fallback_to_master = 0 := by omega
        simp [h0]
    simp [hb, h]

/-- C9 (amended): the rendered summary is the rows sorted by the claim's
order (Both before Replica before Master, then descending total, then
ascending command), one line per row, each line in the left-aligned
format with the fallback suffix exactly on replica rows with nonzero
fallback count. -/
theorem render_summary_spec (rows : List (Route × String × CmdStats)) :
    (rows.mergeSort row_le).Perm rows ∧
    List.Pairwise claimRowOrder (rows.mergeSort row_le) ∧
    render_summary_lines rows = (rows.mergeSort row_le).map claimRenderRow := by
  have htrans : ∀ (x y z : Route × String × CmdStats),
      row_le x y → row_le y z → row_le x z := by
    intro x y z h1 h2
    exact (row_le_iff x z).mpr
      (claimRowOrder_trans x y z ((row_le_iff x y).mp h1) ((row_le_iff y z).mp h2))
  have htotal : ∀ (x y : Route × String × CmdStats), row_le x y || row_le y x := by
    intro x y
    rcases claimRowOrder_total x y with h | h
    · simp [(row_le_iff x y).mpr h]
    · simp [(row_le_iff y x).mpr h]
  refine ⟨List.mergeSort_perm rows row_le, ?_, ?_⟩
  · exact (List.sorted_mergeSort htrans htotal rows).imp fun h => (row_le_iff _ _).mp h
  · unfold render_summary_lines
    exact List.map_congr_left fun row _ => render_row_eq row

/-- C9 counterexample: the row fields are left-aligned (padded on the
right), not left-padded as the claim states — on the row
`(Both, "GET", total 2)` the two formats disagree. -/
theorem render_left_pad_counterexample :
    render_summary_lines [c9row] ≠ [claimRenderRowLeftPad c9row] := by
  have h1 : [c9row].mergeSort row_le = [c9row] := by simp [List.mergeSort]
  unfold render_summary_lines
  rw [h1]
  decide
